import Mathlib

/-!
Shallow embedding of the NanoHash-Invoice core (src/script.js) and
verification of its specification claims.

Modelling conventions:
* JS numbers are modelled as exact rationals (`ℚ`).  A JS `NaN`
  (e.g. `parseFloat` of a non-numeric string, or arithmetic on
  `undefined`) is modelled as `none` in an `Option ℚ`.
* DOM reads (`document.getElementById(...).value`) become explicit
  parameters of the embedded functions.
* `Date.now()` / `new Date().toISOString()` become explicit clock
  parameters (`now : ℕ`, `timestamp : String`).
* The mutable globals `items`, `invoiceNumber`, `invoiceHistory` and the
  `window.currentInvoiceHash` / `window.currentInvoiceTimestamp` cache
  become a `SessionState` record threaded through the operations.
-/

namespace NanoHash

/-- A line item, as built by `addItem` in script.js:
`{ id: Date.now(), name, quantity, price }`. -/
structure Item where
  id : ℕ
  name : String
  quantity : ℚ
  price : ℚ
  deriving Repr, DecidableEq

/-- Exchange rates relative to USD (script.js lines 14-18).  Modelled as a
partial map: a JS property lookup on a missing key yields `undefined`,
here `none`. -/
def exchangeRates (currency : String) : Option ℚ :=
  if currency = "USD" then some 1
  else if currency = "EUR" then some (92/100)
  else if currency = "BOB" then some (691/100)
  else none

/-- `getTaxRate` (script.js lines 162-169).  The raw input is modelled
post-`parseFloat`: `none` stands for `NaN` (absent or unparsable input).
JS `parseFloat(taxRateInput) || 13` replaces every falsy value — `NaN`
but also `0` — by the default `13`; then the value is clamped into
[0, 100] and divided by 100. -/
def getTaxRate (input : Option ℚ) : ℚ :=
  let taxRate : ℚ :=
    match input with
    | none => 13
    | some x => if x = 0 then 13 else x
  let taxRate := if taxRate < 0 then 0 else taxRate
  let taxRate := if taxRate > 100 then 100 else taxRate
  taxRate / 100

/-- Result record of `calculateTotals` (script.js lines 186-193).
`convertedTotal` is `Option ℚ` because `total * exchangeRates[currency]`
is `NaN` when the currency is not a key of `exchangeRates`.
`taxRate` is the percentage (the code multiplies the decimal back by 100). -/
structure Totals where
  subtotal : ℚ
  tax : ℚ
  total : ℚ
  convertedTotal : Option ℚ
  currency : String
  taxRate : ℚ
  deriving Repr, DecidableEq

/-- `calculateTotals` (script.js lines 175-194).  The tax-rate input and the
currency selection are DOM reads in the code, passed here as parameters. -/
def calculateTotals (items : List Item) (taxInput : Option ℚ)
    (currency : String) : Totals :=
  let subtotal := items.foldl (fun sum item => sum + item.quantity * item.price) 0
  let taxRate := getTaxRate taxInput
  let tax := subtotal * taxRate
  let total := subtotal + tax
  let convertedTotal := (exchangeRates currency).map (fun rate => total * rate)
  { subtotal := subtotal
    tax := tax
    total := total
    convertedTotal := convertedTotal
    currency := currency
    taxRate := taxRate * 100 }

/-- A record of `invoiceHistory`, as assembled in `generatePDF`
(script.js lines 435-446).  `hash`/`timestamp` copy the
`window.currentInvoiceHash` / `window.currentInvoiceTimestamp` cache, which
is `undefined` (`none`) when no fingerprint has resolved. -/
structure HistoryRecord where
  invoiceNumber : ℕ
  clientName : String
  fiscalField : String
  total : ℚ
  currency : String
  convertedTotal : Option ℚ
  date : String
  hash : Option String
  timestamp : Option String
  items : List Item
  deriving Repr, DecidableEq

/-- `saveToHistory` (script.js lines 466-472): `unshift` the new record,
then `slice(0, 50)` whenever the length exceeds 50.  (Taking the first 50
of a list of length ≤ 50 is the identity, so the unconditional `take`
matches the guarded `slice`.) -/
def saveToHistory (record : HistoryRecord) (history : List HistoryRecord) :
    List HistoryRecord :=
  (record :: history).take 50

/-- The mutable globals of script.js gathered into one session state:
`items` (line 4), `invoiceNumber` (line 7), `invoiceHistory` (line 10) and
the `window.currentInvoiceHash` / `window.currentInvoiceTimestamp` pair set
asynchronously by `updateDisplay` (lines 273-274). -/
structure SessionState where
  items : List Item
  invoiceNumber : ℕ
  invoiceHistory : List HistoryRecord
  currentHash : Option String
  currentTimestamp : Option String
  deriving Repr, DecidableEq

/-- JS `String.prototype.trim()`: strip leading and trailing whitespace. -/
def jsTrim (s : String) : String :=
  String.mk (((s.data.dropWhile Char.isWhitespace).reverse.dropWhile
    Char.isWhitespace).reverse)

/-- The validation of `validateItem` (script.js lines 81-118) restricted to
its decision: name non-blank after trimming, quantity and price truthy and
strictly positive (`!q || q <= 0` rejects `NaN`, `0` and negatives; `none`
models `NaN`). -/
def validateItem (name : String) (quantity price : Option ℚ) : Bool :=
  !(jsTrim name = "") &&
    (match quantity with | none => false | some q => 0 < q) &&
    (match price with | none => false | some p => 0 < p)

/-- `addItem` (script.js lines 125-143): if validation passes, push
`{ id: Date.now(), name: trimmed, quantity, price }` onto `items`.
`now` models `Date.now()` (milliseconds). -/
def addItem (name : String) (quantity price : Option ℚ) (now : ℕ)
    (s : SessionState) : SessionState :=
  if validateItem name quantity price then
    match quantity, price with
    | some q, some p =>
        { s with items := s.items ++ [{ id := now, name := jsTrim name,
                                        quantity := q, price := p }] }
    | _, _ => s
  else s

/-- `removeItem` (script.js lines 149-154): keep exactly the items whose id
differs from the argument. -/
def removeItem (id : ℕ) (s : SessionState) : SessionState :=
  { s with items := s.items.filter (fun item => item.id ≠ id) }

/-- `generatePDF` (script.js lines 283-459), restricted to its effect on the
session state (the PDF drawing writes only to the document object).  It
reads the client name, fiscal field, tax-rate input, currency and current
date from the DOM (parameters here), computes totals, saves a history
record whose `hash` is whatever `window.currentInvoiceHash` currently holds
(possibly `undefined`), increments the invoice counter and clears `items` —
unconditionally, with no check that a fingerprint is available. -/
def generatePDF (clientNameRaw fiscalField : String) (taxInput : Option ℚ)
    (currency date : String) (s : SessionState) : SessionState :=
  let clientName := if clientNameRaw = "" then "General Client" else clientNameRaw
  let totals := calculateTotals s.items taxInput currency
  let record : HistoryRecord :=
    { invoiceNumber := s.invoiceNumber
      clientName := clientName
      fiscalField := fiscalField
      total := totals.total
      currency := totals.currency
      convertedTotal := totals.convertedTotal
      date := date
      hash := s.currentHash
      timestamp := s.currentTimestamp
      items := s.items }
  { s with
    invoiceHistory := saveToHistory record s.invoiceHistory
    invoiceNumber := s.invoiceNumber + 1
    items := [] }

/-- `regenerateInvoice` (script.js lines 572-583): load a history record's
items and invoice number back into the live state.  (The value-level view;
the reference-level view with array aliasing is `Ref.regenerateInvoice`
below.)  An out-of-range index throws in JS before any assignment, leaving
the state unchanged. -/
def regenerateInvoice (index : ℕ) (s : SessionState) : SessionState :=
  match s.invoiceHistory.get? index with
  | some record =>
      { s with items := record.items, invoiceNumber := record.invoiceNumber }
  | none => s

/-- The `DOMContentLoaded` listener (script.js lines 620-636), restricted to
the core state.  `savedNumber` models `parseInt(localStorage.getItem(...))`
(already parsed); `savedHistory` is the raw persisted bytes and `parse`
models `JSON.parse`, returning `none` when it would throw.  The history
load is the listener's final statement, so when `JSON.parse` throws, every
earlier assignment has already run and `invoiceHistory` keeps its initial
value `[]`; the thrown exception ends the listener but not the page, so
this is also the observable state of the session afterwards. -/
def initSession (savedNumber : Option ℕ) (savedHistory : Option String)
    (parse : String → Option (List HistoryRecord)) : SessionState :=
  { items := []
    invoiceNumber := match savedNumber with | some n => n | none => 1001
    invoiceHistory :=
      match savedHistory with
      | some bytes => (parse bytes).getD []
      | none => []
    currentHash := none
    currentTimestamp := none }

/-! ### Fingerprint generation (script.js lines 27-73)

`generateBlockchainData` captures `new Date().toISOString()` (parameter
`timestamp` here), builds `blockData` with the items stripped of their
`id` field, serializes it with `JSON.stringify` (key order = insertion
order) and hashes the result with SHA-256.  The SHA-256 digest is a
platform primitive (`crypto.subtle`), abstracted as a `hashFn` parameter;
its collision resistance appears as an injectivity hypothesis in the
theorems. -/

/-- An item as it appears inside `blockData`: only name, quantity and
price — `item.id` is not copied (script.js lines 57-63). -/
structure BlockItem where
  name : String
  quantity : ℚ
  price : ℚ
  deriving Repr, DecidableEq

/-- The `invoiceData` argument of `generateBlockchainData`, as assembled by
`updateDisplay` (script.js lines 248-253): the live items, ids included. -/
structure InvoiceData where
  invoiceNumber : ℕ
  clientName : String
  total : ℚ
  items : List Item
  deriving Repr, DecidableEq

/-- The `blockData` object (script.js lines 52-64). -/
structure BlockData where
  invoiceNumber : ℕ
  clientName : String
  total : ℚ
  timestamp : String
  items : List BlockItem
  deriving Repr, DecidableEq

/-- `generateBlockchainData`'s construction of `blockData` (script.js
lines 51-64): the captured timestamp is mixed in as a field, and each item
is projected to `\x7bname, quantity, price\x7d`, dropping `id`. -/
def generateBlockchainData (invoiceData : InvoiceData) (timestamp : String) :
    BlockData :=
  { invoiceNumber := invoiceData.invoiceNumber
    clientName := invoiceData.clientName
    total := invoiceData.total
    timestamp := timestamp
    items := invoiceData.items.map fun item =>
      { name := item.name, quantity := item.quantity, price := item.price } }

/-- `JSON.stringify` of a `blockData` item (string escaping elided; no
claim depends on it). -/
def serializeItem (item : BlockItem) : String :=
  "\x7b\x22name\x22:\x22" ++ item.name ++ "\x22,\x22quantity\x22:"
    ++ toString item.quantity ++ ",\x22price\x22:" ++ toString item.price ++ "\x7d"

/-- The serialized `items` array. -/
def serializeItems (items : List BlockItem) : String :=
  "[" ++ String.intercalate "," (items.map serializeItem) ++ "]"

/-- The serialization of `blockData` up to (and including) the opening
quote of the timestamp value; depends only on the non-timestamp fields
before `timestamp` in insertion order. -/
def blockHead (bd : BlockData) : String :=
  "\x7b\x22invoiceNumber\x22:" ++ toString bd.invoiceNumber
    ++ ",\x22clientName\x22:\x22" ++ bd.clientName
    ++ "\x22,\x22total\x22:" ++ toString bd.total
    ++ ",\x22timestamp\x22:\x22"

/-- The serialization of `blockData` after the timestamp value. -/
def blockTail (bd : BlockData) : String :=
  "\x22,\x22items\x22:" ++ serializeItems bd.items ++ "\x7d"

/-- `JSON.stringify(blockData)` (invoked inside `generateHash`,
script.js line 35): keys in insertion order —
invoiceNumber, clientName, total, timestamp, items. -/
def serializeBlock (bd : BlockData) : String :=
  blockHead bd ++ bd.timestamp ++ blockTail bd

/-- `generateHash` (script.js lines 34-43): serialize, then digest.  The
digest (`crypto.subtle.digest('SHA-256', ...)` plus hex rendering) is the
abstracted `hashFn`. -/
def generateHash (hashFn : String → String) (bd : BlockData) : String :=
  hashFn (serializeBlock bd)

/-- The fingerprint of an invoice: `generateBlockchainData` followed by
`generateHash` (script.js lines 50-73). -/
def fingerprint (hashFn : String → String) (invoiceData : InvoiceData)
    (timestamp : String) : String :=
  generateHash hashFn (generateBlockchainData invoiceData timestamp)

/-! ### Reference-level model of the item arrays

The value-level `SessionState` above ignores JS array identity.  That is
faithful for every operation except `regenerateInvoice`, whose
`items = invoice.items` (script.js line 574) makes the live `items`
variable an *alias* of the array stored inside the history record, so the
in-place `items.push(item)` of `addItem` (line 135) then mutates the
record.  The `Ref` model makes array identity explicit: a heap of arrays,
indexed by allocation order; variables and record fields hold references.

Per-operation array behaviour, from the source:
* `addItem`: `items.push(...)` mutates the array in place — heap update
  at the live reference.
* `removeItem`: `items = items.filter(...)` allocates a fresh array and
  rebinds the live variable — the old array is untouched.
* `generatePDF`: `JSON.parse(JSON.stringify(items))` deep-copies into a
  fresh array for the record; `items = []` rebinds the live variable to
  another fresh array.
* `regenerateInvoice`: `items = invoice.items` rebinds the live variable
  to the record's own array — no copy. -/

namespace Ref

/-- A history record holding a *reference* to its items array. -/
structure HistoryRecord where
  invoiceNumber : ℕ
  clientName : String
  fiscalField : String
  total : ℚ
  currency : String
  convertedTotal : Option ℚ
  date : String
  hash : Option String
  timestamp : Option String
  itemsRef : ℕ
  deriving Repr, DecidableEq

/-- Session state with an explicit heap of item arrays: `heap.getD r []`
dereferences `r`; allocation appends at index `heap.length`. -/
structure State where
  heap : List (List Item)
  itemsRef : ℕ
  invoiceNumber : ℕ
  invoiceHistory : List HistoryRecord
  currentHash : Option String
  currentTimestamp : Option String
  deriving Repr, DecidableEq

/-- The live `items` array (dereference the live variable). -/
def liveItems (s : State) : List Item :=
  s.heap.getD s.itemsRef []

/-- The items array stored inside a history record (dereference the
record's field). -/
def recordItems (s : State) (record : HistoryRecord) : List Item :=
  s.heap.getD record.itemsRef []

/-- `addItem` with array identity: `items.push(item)` mutates the array the
live variable currently references. -/
def addItem (name : String) (quantity price : Option ℚ) (now : ℕ)
    (s : State) : State :=
  if validateItem name quantity price then
    match quantity, price with
    | some q, some p =>
        let pushed := liveItems s ++ [{ id := now, name := jsTrim name,
                                        quantity := q, price := p }]
        { s with heap := s.heap.set s.itemsRef pushed }
    | _, _ => s
  else s

/-- `removeItem` with array identity: `filter` allocates a fresh array and
`items = ...` rebinds the live variable to it. -/
def removeItem (id : ℕ) (s : State) : State :=
  { s with
    heap := s.heap ++ [(liveItems s).filter (fun item => item.id ≠ id)]
    itemsRef := s.heap.length }

/-- `generatePDF` with array identity: the record receives a deep copy
(`JSON.parse(JSON.stringify(items))`) in a fresh array; afterwards
`items = []` rebinds the live variable to another fresh, empty array. -/
def generatePDF (clientNameRaw fiscalField : String) (taxInput : Option ℚ)
    (currency date : String) (s : State) : State :=
  let clientName := if clientNameRaw = "" then "General Client" else clientNameRaw
  let totals := calculateTotals (liveItems s) taxInput currency
  let heap₁ := s.heap ++ [liveItems s]
  let record : HistoryRecord :=
    { invoiceNumber := s.invoiceNumber
      clientName := clientName
      fiscalField := fiscalField
      total := totals.total
      currency := totals.currency
      convertedTotal := totals.convertedTotal
      date := date
      hash := s.currentHash
      timestamp := s.currentTimestamp
      itemsRef := s.heap.length }
  { s with
    heap := heap₁ ++ [[]]
    itemsRef := heap₁.length
    invoiceHistory := (record :: s.invoiceHistory).take 50
    invoiceNumber := s.invoiceNumber + 1 }

/-- `regenerateInvoice` with array identity: `items = invoice.items`
rebinds the live variable to the record's array — the two now alias. -/
def regenerateInvoice (index : ℕ) (s : State) : State :=
  match s.invoiceHistory.get? index with
  | some record =>
      { s with itemsRef := record.itemsRef,
               invoiceNumber := record.invoiceNumber }
  | none => s

/-- A fresh session: one empty live array at reference 0. -/
def initialState : State :=
  { heap := [[]]
    itemsRef := 0
    invoiceNumber := 1001
    invoiceHistory := []
    currentHash := some "deadbeef"
    currentTimestamp := some "2026-01-01T00:00:00.000Z" }

end Ref

/-! ### Concrete fixtures for witnesses and counterexamples -/

/-- A concrete line item: 2 widgets at 10 each. -/
def wItem : Item := { id := 1, name := "Widget", quantity := 2, price := 10 }

/-- A second concrete line item: 1 gadget at 5. -/
def gItem : Item := { id := 2, name := "Gadget", quantity := 1, price := 5 }

/-- A concrete history record, parameterized by invoice number. -/
def mkRecord (n : ℕ) : HistoryRecord :=
  { invoiceNumber := 1001 + n
    clientName := "Client"
    fiscalField := ""
    total := 10
    currency := "USD"
    convertedTotal := some 10
    date := "1/1/2026"
    hash := some "abc"
    timestamp := some "2026-01-01T00:00:00.000Z"
    items := [wItem] }

/-- A session holding one item whose fingerprint never resolved
(`window.currentInvoiceHash` still `undefined`). -/
def hashlessState : SessionState :=
  { items := [wItem]
    invoiceNumber := 1001
    invoiceHistory := []
    currentHash := none
    currentTimestamp := none }

/-- A session holding one item with a resolved fingerprint. -/
def hashedState : SessionState :=
  { items := [wItem]
    invoiceNumber := 1001
    invoiceHistory := []
    currentHash := some "deadbeef"
    currentTimestamp := some "2026-01-01T00:00:00.000Z" }

/-- A session with an empty item store. -/
def emptyState : SessionState :=
  { items := []
    invoiceNumber := 1001
    invoiceHistory := []
    currentHash := none
    currentTimestamp := none }

/-- A session whose history holds one record. -/
def histState : SessionState :=
  { items := []
    invoiceNumber := 2000
    invoiceHistory := [mkRecord 0]
    currentHash := none
    currentTimestamp := none }

/-- Concrete invoice data for the fingerprint claims. -/
def invA : InvoiceData :=
  { invoiceNumber := 1001, clientName := "Acme", total := 113/5, items := [wItem] }

/-- Same content as `invA`, but the item carries a different identity
token (`id`). -/
def invB : InvoiceData :=
  { invoiceNumber := 1001, clientName := "Acme", total := 113/5
    items := [{ id := 99, name := "Widget", quantity := 2, price := 10 }] }

/-- A concrete capture timestamp. -/
def tsA : String := "2026-01-01T00:00:00.000Z"

/-- A later capture timestamp. -/
def tsB : String := "2026-01-01T00:00:01.000Z"

/-- Reference-model trace, step 1: add one item to a fresh session. -/
def rsAdd : Ref.State := Ref.addItem "Widget" (some 2) (some 10) 111 Ref.initialState

/-- Step 2: finalize (`generatePDF`) — the history record receives a deep
copy of the items. -/
def rsFin : Ref.State := Ref.generatePDF "Acme" "" (some 13) "USD" "1/1/2026" rsAdd

/-- Step 3: regenerate invoice 0 — the live `items` variable now aliases
the record's array. -/
def rsRegen : Ref.State := Ref.regenerateInvoice 0 rsFin

/-- Step 4: add another item — `push` mutates the aliased array. -/
def rsAdd2 : Ref.State := Ref.addItem "Gadget" (some 1) (some 5) 222 rsRegen

/-! ### Helper lemmas -/

/-- The accumulating fold used by `items.reduce` equals the plain sum of
`quantity * price` over the list. -/
lemma foldl_add_eq_sum (items : List Item) (a : ℚ) :
    items.foldl (fun sum item => sum + item.quantity * item.price) a
      = a + (items.map fun item => item.quantity * item.price).sum := by
  induction items generalizing a with
  | nil => simp
  | cons x xs ih => simp [List.foldl_cons, ih, add_assoc]

lemma calculateTotals_subtotal (items : List Item) (taxInput : Option ℚ)
    (currency : String) :
    (calculateTotals items taxInput currency).subtotal
      = (items.map fun item => item.quantity * item.price).sum := by
  simp [calculateTotals, foldl_add_eq_sum]

/-- Splicing distinct middle segments between a common head and tail
yields distinct strings. -/
lemma append_mid_inj (pre suf t₁ t₂ : String)
    (h : pre ++ t₁ ++ suf = pre ++ t₂ ++ suf) : t₁ = t₂ := by
  have hd := congrArg String.data h
  simp only [String.data_append, List.append_assoc] at hd
  have h2 := List.append_cancel_right (List.append_cancel_left hd)
  cases t₁; cases t₂; exact congrArg String.mk h2

/-- Projecting away the `id` field sends item lists that agree on name,
quantity and price to the same `BlockItem` list. -/
lemma map_blockItem_eq (l₁ l₂ : List Item)
    (h : List.Forall₂
      (fun a b : Item => a.name = b.name ∧ a.quantity = b.quantity ∧ a.price = b.price)
      l₁ l₂) :
    (l₁.map fun item => BlockItem.mk item.name item.quantity item.price)
      = (l₂.map fun item => BlockItem.mk item.name item.quantity item.price) := by
  induction h with
  | nil => rfl
  | cons hx _ ih =>
      obtain ⟨h1, h2, h3⟩ := hx
      simp [List.map_cons, h1, h2, h3, ih]

/-! ### Claim theorems -/

/-- C2: For every list of items, tax-rate input and currency with a
configured exchange rate, `calculateTotals` returns
`subtotal = Σ quantity * unitPrice` (order-independent: any permutation of
the items yields the same subtotal), `tax = subtotal * taxRatePercent/100`,
`total = subtotal + tax` and `convertedTotal = total * rate(currency)`.
(`calculateTotals` is a pure function of its arguments in this embedding,
exactly as the source only reads `items`, so it cannot modify the stored
items.) -/
theorem C2_totals_correct (items items' : List Item) (taxInput : Option ℚ)
    (currency : String) (rate : ℚ) (hperm : items.Perm items')
    (hrate : exchangeRates currency = some rate) :
    (calculateTotals items taxInput currency).subtotal
        = (items.map fun item => item.quantity * item.price).sum
      ∧ (calculateTotals items' taxInput currency).subtotal
        = (calculateTotals items taxInput currency).subtotal
      ∧ (calculateTotals items taxInput currency).tax
        = (calculateTotals items taxInput currency).subtotal
            * ((calculateTotals items taxInput currency).taxRate / 100)
      ∧ (calculateTotals items taxInput currency).total
        = (calculateTotals items taxInput currency).subtotal
            + (calculateTotals items taxInput currency).tax
      ∧ (calculateTotals items taxInput currency).convertedTotal
        = some ((calculateTotals items taxInput currency).total * rate) := by
  refine ⟨calculateTotals_subtotal items taxInput currency, ?_, ?_, ?_, ?_⟩
  · rw [calculateTotals_subtotal, calculateTotals_subtotal]
    exact ((hperm.map _).sum_eq).symm
  · simp only [calculateTotals]
    ring
  · simp only [calculateTotals]
  · simp [calculateTotals, hrate]

/-- C2 witness: concrete evaluation at two widgets/gadgets in both orders,
tax input 13, currency EUR (rate 0.92). -/
theorem C2_totals_correct_witness :
    (calculateTotals [wItem, gItem] (some 13) "EUR").subtotal
        = ([wItem, gItem].map fun item => item.quantity * item.price).sum
      ∧ (calculateTotals [gItem, wItem] (some 13) "EUR").subtotal
        = (calculateTotals [wItem, gItem] (some 13) "EUR").subtotal
      ∧ (calculateTotals [wItem, gItem] (some 13) "EUR").tax
        = (calculateTotals [wItem, gItem] (some 13) "EUR").subtotal
            * ((calculateTotals [wItem, gItem] (some 13) "EUR").taxRate / 100)
      ∧ (calculateTotals [wItem, gItem] (some 13) "EUR").total
        = (calculateTotals [wItem, gItem] (some 13) "EUR").subtotal
            + (calculateTotals [wItem, gItem] (some 13) "EUR").tax
      ∧ (calculateTotals [wItem, gItem] (some 13) "EUR").convertedTotal
        = some ((calculateTotals [wItem, gItem] (some 13) "EUR").total * (92/100)) :=
  C2_totals_correct [wItem, gItem] [gItem, wItem] (some 13) "EUR" (92/100)
    (List.Perm.swap gItem wItem [])
    (by norm_num [exchangeRates, String.ext_iff]; decide)

/-- C3: the code substitutes the default 13 for a *parsed* tax rate of 0
(JS `parseFloat(input) || 13` treats the number 0 as falsy), contradicting
the claim that any in-range parsed value, including 0, is used as-is.  The
remaining conjuncts confirm the claimed behaviour everywhere else: default
on absent/unparsable input, clamping of -5 to 0 and of 150 to 100, and an
ordinary in-range value used as-is (the function returns the rate divided
by 100). -/
theorem C3_taxRate_zero_defaulted :
    getTaxRate (some 0) = 13/100
      ∧ getTaxRate none = 13/100
      ∧ getTaxRate (some (-5)) = 0
      ∧ getTaxRate (some 150) = 1
      ∧ getTaxRate (some 20) = 20/100 := by
  refine ⟨?_, ?_, ?_, ?_, ?_⟩ <;> norm_num [getTaxRate]

/-- C4: the history ledger never exceeds 50 records and `saveToHistory`
inserts at the head; appending 51 distinct records one at a time leaves
exactly 50, with the most recently appended record at the head and the
first-appended record evicted. -/
theorem C4_history_bound :
    (∀ (record : HistoryRecord) (history : List HistoryRecord),
        (saveToHistory record history).length ≤ 50
          ∧ (saveToHistory record history).head? = some record)
      ∧ (((List.range 51).map mkRecord).foldl
            (fun history record => saveToHistory record history) []).length = 50
      ∧ (((List.range 51).map mkRecord).foldl
            (fun history record => saveToHistory record history) []).head?
          = some (mkRecord 50)
      ∧ mkRecord 0 ∉ ((List.range 51).map mkRecord).foldl
            (fun history record => saveToHistory record history) [] := by
  refine ⟨fun record history => ⟨?_, rfl⟩, by decide, by decide, by decide⟩
  simp only [saveToHistory, List.length_take]
  exact min_le_left _ _

/-- C1 counterexample: in the state `hashlessState` the fingerprint never
resolved (`currentHash = none`, i.e. `HashUnavailable` before finalize),
yet `generatePDF` does NOT leave the state unchanged: the item store, the
counter and the history length all change. -/
theorem C1_counterexample :
    hashlessState.currentHash = none
      ∧ ¬ ((generatePDF "Acme" "" (some 13) "USD" "1/1/2026" hashlessState).items
            = hashlessState.items
          ∧ (generatePDF "Acme" "" (some 13) "USD" "1/1/2026" hashlessState).invoiceNumber
            = hashlessState.invoiceNumber
          ∧ (generatePDF "Acme" "" (some 13) "USD" "1/1/2026"
                hashlessState).invoiceHistory.length
            = hashlessState.invoiceHistory.length) := by
  decide

/-- C1 amended: finalize is not all-or-nothing.  Even when fingerprint
generation failed (`currentHash = none`), `generatePDF` still clears the
item store, increments the counter by 1 and appends a history record —
whose `hash` field is simply absent — holding the pre-finalize items. -/
theorem C1_finalize_ignores_hash_failure (clientNameRaw fiscalField : String)
    (taxInput : Option ℚ) (currency date : String) (s : SessionState)
    (hhash : s.currentHash = none) :
    (generatePDF clientNameRaw fiscalField taxInput currency date s).items = []
      ∧ (generatePDF clientNameRaw fiscalField taxInput currency date s).invoiceNumber
        = s.invoiceNumber + 1
      ∧ (generatePDF clientNameRaw fiscalField taxInput currency
            date s).invoiceHistory.length
        = min 50 (s.invoiceHistory.length + 1)
      ∧ (generatePDF clientNameRaw fiscalField taxInput currency
            date s).invoiceHistory.head?.map
          (fun record => (record.hash, record.items, record.invoiceNumber))
        = some (none, s.items, s.invoiceNumber)
      ∧ (generatePDF clientNameRaw fiscalField taxInput currency
            date s).invoiceHistory.tail
        = s.invoiceHistory.take 49 := by
  refine ⟨rfl, rfl, ?_, ?_, rfl⟩
  · simp [generatePDF, saveToHistory, List.length_take]
    omega
  · show some (s.currentHash, s.items, s.invoiceNumber)
      = some (none, s.items, s.invoiceNumber)
    rw [hhash]

/-- C1 witness: the amended behaviour evaluated on the concrete hashless
session. -/
theorem C1_finalize_ignores_hash_failure_witness :
    (generatePDF "Acme" "" (some 13) "USD" "1/1/2026" hashlessState).items = []
      ∧ (generatePDF "Acme" "" (some 13) "USD" "1/1/2026" hashlessState).invoiceNumber
        = hashlessState.invoiceNumber + 1
      ∧ (generatePDF "Acme" "" (some 13) "USD" "1/1/2026"
            hashlessState).invoiceHistory.length
        = min 50 (hashlessState.invoiceHistory.length + 1)
      ∧ (generatePDF "Acme" "" (some 13) "USD" "1/1/2026"
            hashlessState).invoiceHistory.head?.map
          (fun record => (record.hash, record.items, record.invoiceNumber))
        = some (none, hashlessState.items, hashlessState.invoiceNumber)
      ∧ (generatePDF "Acme" "" (some 13) "USD" "1/1/2026"
            hashlessState).invoiceHistory.tail
        = hashlessState.invoiceHistory.take 49 :=
  C1_finalize_ignores_hash_failure "Acme" "" (some 13) "USD" "1/1/2026"
    hashlessState rfl

/-- C5 counterexample: a reachable operation sequence that decreases the
counter: finalize one invoice (counter 1001 → 1002), then
`regenerateInvoice 0`, which overwrites the counter with the stored
record's invoice number 1001. -/
theorem C5_counterexample :
    (regenerateInvoice 0
        (generatePDF "Acme" "" (some 13) "USD" "1/1/2026" hashedState)).invoiceNumber
      < (generatePDF "Acme" "" (some 13) "USD" "1/1/2026" hashedState).invoiceNumber := by
  decide

/-- C5 amended: the counter increments by exactly 1 per finalize and is
unchanged by add/remove — but `regenerateInvoice` overwrites it with the
selected record's (previously used, possibly smaller) invoice number, so
monotonicity does not hold across regenerate. -/
theorem C5_counter_behaviour :
    (∀ (clientNameRaw fiscalField : String) (taxInput : Option ℚ)
        (currency date : String) (s : SessionState),
        (generatePDF clientNameRaw fiscalField taxInput currency date s).invoiceNumber
          = s.invoiceNumber + 1)
      ∧ (∀ (name : String) (quantity price : Option ℚ) (now : ℕ) (s : SessionState),
          (addItem name quantity price now s).invoiceNumber = s.invoiceNumber)
      ∧ (∀ (id : ℕ) (s : SessionState),
          (removeItem id s).invoiceNumber = s.invoiceNumber)
      ∧ (∀ (index : ℕ) (s : SessionState) (record : HistoryRecord),
          s.invoiceHistory.get? index = some record →
            (regenerateInvoice index s).invoiceNumber = record.invoiceNumber) := by
  refine ⟨fun _ _ _ _ _ _ => rfl, ?_, fun _ _ => rfl, ?_⟩
  · intro name quantity price now s
    unfold addItem
    split
    · rcases quantity with _ | q <;> rcases price with _ | p <;> rfl
    · rfl
  · intro index s record h
    rw [List.get?_eq_getElem?] at h
    simp [regenerateInvoice, h]

/-- C5 witness: the amended behaviour evaluated on concrete states — one
finalize increments 1001 to 1002, and regenerate on a one-record history
resets the counter to the record's number. -/
theorem C5_counter_behaviour_witness :
    (generatePDF "Acme" "" (some 13) "USD" "1/1/2026" hashedState).invoiceNumber
        = hashedState.invoiceNumber + 1
      ∧ (regenerateInvoice 0 histState).invoiceNumber = (mkRecord 0).invoiceNumber :=
  ⟨C5_counter_behaviour.1 "Acme" "" (some 13) "USD" "1/1/2026" hashedState,
   C5_counter_behaviour.2.2.2 0 histState (mkRecord 0) rfl⟩

/-- C6: the fingerprint depends only on economically meaningful content
plus the captured timestamp.  Two invoices that agree on invoice number,
client name, total, and on every item's name/quantity/price — differing
only in item ids — serialize identically, hence hash to the same
fingerprint for any digest function; while the same invoice fingerprinted
at two different timestamps yields different serializations, hence
different fingerprints for any injective (collision-free on these inputs)
digest function. -/
theorem C6_fingerprint_content_only (hashFn : String → String)
    (inv₁ inv₂ : InvoiceData) (t t₁ t₂ : String)
    (hn : inv₁.invoiceNumber = inv₂.invoiceNumber)
    (hc : inv₁.clientName = inv₂.clientName)
    (ht : inv₁.total = inv₂.total)
    (hitems : List.Forall₂
      (fun a b : Item => a.name = b.name ∧ a.quantity = b.quantity ∧ a.price = b.price)
      inv₁.items inv₂.items)
    (hinj : Function.Injective hashFn) (hts : t₁ ≠ t₂) :
    serializeBlock (generateBlockchainData inv₁ t)
        = serializeBlock (generateBlockchainData inv₂ t)
      ∧ fingerprint hashFn inv₁ t = fingerprint hashFn inv₂ t
      ∧ fingerprint hashFn inv₁ t₁ ≠ fingerprint hashFn inv₁ t₂ := by
  have hbd : generateBlockchainData inv₁ t = generateBlockchainData inv₂ t := by
    have hmap := map_blockItem_eq inv₁.items inv₂.items hitems
    simp [generateBlockchainData, hn, hc, ht, hmap]
  refine ⟨congrArg serializeBlock hbd,
    congrArg (fun bd => hashFn (serializeBlock bd)) hbd, ?_⟩
  intro heq
  have h := hinj heq
  have h' : blockHead (generateBlockchainData inv₁ t₁) ++ t₁
        ++ blockTail (generateBlockchainData inv₁ t₁)
      = blockHead (generateBlockchainData inv₁ t₁) ++ t₂
        ++ blockTail (generateBlockchainData inv₁ t₁) := h
  exact hts (append_mid_inj _ _ _ _ h')

/-- C6 witness: concrete invoices differing only in an item id fingerprint
identically; the same invoice at two timestamps does not (digest
instantiated with the identity function, which is injective). -/
theorem C6_fingerprint_content_only_witness :
    serializeBlock (generateBlockchainData invA tsA)
        = serializeBlock (generateBlockchainData invB tsA)
      ∧ fingerprint (fun s => s) invA tsA = fingerprint (fun s => s) invB tsA
      ∧ fingerprint (fun s => s) invA tsA ≠ fingerprint (fun s => s) invA tsB :=
  C6_fingerprint_content_only (fun s => s) invA invB tsA tsA tsB rfl rfl rfl
    (List.Forall₂.cons ⟨rfl, rfl, rfl⟩ List.Forall₂.nil)
    (fun _ _ h => h) (by decide)

/-- C7: evaluating the reference-level trace
add → finalize → regenerate → add.  After finalize the history record
holds a copy of the single item; `addItem` after `regenerateInvoice`
mutates the array the record's `itemsRef` points to (the live variable
aliases it), so the record's stored items change from one item to two even
though the history list itself was never touched — contradicting the
claim that record items are independent of the live store. -/
theorem C7_record_items_mutated_after_regenerate :
    (rsFin.invoiceHistory.head?.map (Ref.recordItems rsFin))
        = some [{ id := 111, name := "Widget", quantity := 2, price := 10 }]
      ∧ rsAdd2.invoiceHistory = rsFin.invoiceHistory
      ∧ (rsAdd2.invoiceHistory.head?.map (Ref.recordItems rsAdd2))
        = some [{ id := 111, name := "Widget", quantity := 2, price := 10 },
                { id := 222, name := "Gadget", quantity := 1, price := 5 }] := by
  refine ⟨by decide, rfl, by decide⟩

/-- C8 counterexample: for the unknown currency "GBP" the computation does
not fail with an `UnknownCurrency` error — `calculateTotals` returns a
result as usual (subtotal computed normally), with `convertedTotal`
being `NaN` (`none`: `total * exchangeRates["GBP"]` multiplies by
`undefined`). -/
theorem C8_counterexample :
    exchangeRates "GBP" = none
      ∧ (calculateTotals [wItem] (some 13) "GBP").convertedTotal = none
      ∧ (calculateTotals [wItem] (some 13) "GBP").subtotal = 20 := by
  refine ⟨rfl, rfl, ?_⟩
  rw [calculateTotals_subtotal]
  simp [wItem]
  norm_num

/-- C8 amended: for a currency outside the configured set the computation
does not raise an error; it silently returns totals whose
`convertedTotal` is `NaN` (no numeric value).  For every code in the set
`convertedTotal = total * rate(currency)`; membership in
\x7bUSD, EUR, BOB\x7d coincides with the rate lookup succeeding. -/
theorem C8_unknown_currency_nan (items : List Item) (taxInput : Option ℚ)
    (currency : String) :
    (exchangeRates currency = none →
        (calculateTotals items taxInput currency).convertedTotal = none)
      ∧ (∀ rate : ℚ, exchangeRates currency = some rate →
          (calculateTotals items taxInput currency).convertedTotal
            = some ((calculateTotals items taxInput currency).total * rate))
      ∧ ((currency = "USD" ∨ currency = "EUR" ∨ currency = "BOB")
          ↔ (exchangeRates currency).isSome = true) := by
  refine ⟨?_, ?_, ?_⟩
  · intro h
    simp [calculateTotals, h]
  · intro rate h
    simp [calculateTotals, h]
  · unfold exchangeRates
    split_ifs <;> simp_all

/-- C8 witness: the amended behaviour at the unknown currency "CHF" (no
numeric converted total, no error) and at the configured currency "BOB"
(numeric converted total at rate 6.91). -/
theorem C8_unknown_currency_nan_witness :
    (calculateTotals [gItem] (some 13) "CHF").convertedTotal = none
      ∧ (calculateTotals [gItem] (some 13) "BOB").convertedTotal
        = some ((calculateTotals [gItem] (some 13) "BOB").total * (691/100)) :=
  ⟨(C8_unknown_currency_nan [gItem] (some 13) "CHF").1 rfl,
   (C8_unknown_currency_nan [gItem] (some 13) "BOB").2.1 (691/100) rfl⟩

/-- C9: when the persisted history bytes fail to deserialize
(`parse bytes = none`, modelling a `JSON.parse` throw on corrupted data),
session initialization yields an empty history ledger, an empty item
store, and the invoice counter loaded normally (persisted value, or 1001
when absent) — corrupted history is recoverable data loss, not a fatal
fault. -/
theorem C9_corrupt_history_recovered (savedNumber : Option ℕ) (bytes : String)
    (parse : String → Option (List HistoryRecord))
    (hfail : parse bytes = none) :
    (initSession savedNumber (some bytes) parse).invoiceHistory = []
      ∧ (initSession savedNumber (some bytes) parse).items = []
      ∧ (initSession savedNumber (some bytes) parse).invoiceNumber
        = savedNumber.getD 1001 := by
  refine ⟨?_, rfl, ?_⟩
  · simp [initSession, hfail]
  · cases savedNumber <;> rfl

/-- C9 witness: corrupted bytes with a persisted counter 1042 — the
session starts with empty history and counter 1042. -/
theorem C9_corrupt_history_recovered_witness :
    (initSession (some 1042) (some "corrupt") (fun _ => none)).invoiceHistory = []
      ∧ (initSession (some 1042) (some "corrupt") (fun _ => none)).items = []
      ∧ (initSession (some 1042) (some "corrupt") (fun _ => none)).invoiceNumber
        = (some 1042 : Option ℕ).getD 1001 :=
  C9_corrupt_history_recovered (some 1042) "corrupt" (fun _ => none) rfl

/-- C10: `removeItem id` retains exactly the items whose id differs from
the argument, preserving relative order (the result is a sublist of the
original); and since ids are minted from `Date.now()`, two items added in
the same millisecond share one id, so a single remove deletes both. -/
theorem C10_remove_filters_by_id (id : ℕ) (s : SessionState) (x : Item)
    (name₁ name₂ : String) (q₁ p₁ q₂ p₂ : ℚ) (now : ℕ) (t : SessionState)
    (h₁ : validateItem name₁ (some q₁) (some p₁) = true)
    (h₂ : validateItem name₂ (some q₂) (some p₂) = true)
    (hempty : t.items = []) :
    (x ∈ (removeItem id s).items ↔ x ∈ s.items ∧ x.id ≠ id)
      ∧ (removeItem id s).items.Sublist s.items
      ∧ (removeItem now (addItem name₂ (some q₂) (some p₂) now
            (addItem name₁ (some q₁) (some p₁) now t))).items = [] := by
  refine ⟨?_, ?_, ?_⟩
  · simp [removeItem, List.mem_filter]
  · exact List.filter_sublist _
  · simp [addItem, h₁, h₂, removeItem, hempty, List.filter]

/-- C10 witness: removing the only item's id empties a one-item store
(membership instance), and two items added at the same clock value 5 are
both deleted by one remove. -/
theorem C10_remove_filters_by_id_witness :
    (wItem ∈ (removeItem 1 hashedState).items
        ↔ wItem ∈ hashedState.items ∧ wItem.id ≠ 1)
      ∧ (removeItem 1 hashedState).items.Sublist hashedState.items
      ∧ (removeItem 5 (addItem "Alpha" (some 2) (some 2) 5
            (addItem "Beta" (some 1) (some 1) 5 emptyState))).items = [] :=
  C10_remove_filters_by_id 1 hashedState wItem "Beta" "Alpha" 1 1 2 2 5 emptyState
    (by decide) (by decide) rfl

end NanoHash
